import Mathlib

/-!
Verification development for the Azure Content Understanding client
(`content_understanding_client.py`): a shallow embedding of the
long-running-operation poller (`poll_result`), the request builders
(`begin_analyze`, `begin_classify`), the batch pre-flight list builders
(`_get_analyze_list`, `_get_upload_only_list`) and the knowledge-base
batch driver (`generate_knowledge_base_on_blob`), together with theorems
about them.

Modelling conventions:
* machine time is idealised: status queries are instantaneous and each
  `time.sleep(polling_interval_seconds)` advances the clock by exactly
  `polling_interval_seconds`, so the elapsed time at the top of loop
  iteration `k` is `k * polling_interval_seconds`;
* `timeout_seconds` is an `Int` (a Python `int` may be negative), while
  `polling_interval_seconds` is a `Nat` (`time.sleep` rejects negative
  arguments);
* Python exceptions are values of an explicit error type `PyError`;
* the remote service is an oracle: an infinite sequence of status
  responses for the poller, and a per-file analyze oracle for the batch
  driver;
* file bytes are `List Nat` (each entry one byte).
-/

/-- Python `str.lower` on one character, for the ASCII range the client
compares (status strings and file extensions). -/
def pyLowerChar (c : Char) : Char :=
  if 'A' ≤ c ∧ c ≤ 'Z' then Char.ofNat (c.toNat + 32) else c

/-- Python `str.lower` (restricted to ASCII case mapping). -/
def pyLower (s : String) : String := String.mk (s.data.map pyLowerChar)

/-- One 2xx status response from the operation-status endpoint, as seen by
`poll_result`: `response.json().get("status")` is the optional status
string, and `body` abstracts the rest of the JSON payload. -/
structure PollResponse where
  status? : Option String
  body : Nat
deriving DecidableEq, Repr

/-- How one call to `poll_result` ends: `success` models returning
`response.json()`, `runtimeError` models `raise RuntimeError(msg)`,
`timeoutErr` models `raise TimeoutError(...)`, and `attributeError`
models the untyped `AttributeError` from calling `.lower()` on `None`. -/
inductive PollOutcome where
  | success (payload : PollResponse)
  | runtimeError (msg : String)
  | timeoutErr
  | attributeError
deriving DecidableEq, Repr

/-- The observable effect of one `poll_result` call: the outcome, the
number of GET status queries issued, the number of sleeps performed
(each of length `polling_interval_seconds`), and the payloads written to
the error log (`self._logger.error`). -/
structure PollRun where
  outcome : PollOutcome
  queries : Nat
  sleeps : Nat
  errorLog : List PollResponse
deriving DecidableEq, Repr

/-- The `while True` loop of `poll_result`, with `k` the number of
completed iterations so far (so the idealised elapsed time is
`k * interval`) and explicit fuel. Mirrors the source order exactly:
deadline check first, then the GET, then the case-insensitive dispatch on
the `status` field; a missing `status` field hits `None.lower()` and
raises `AttributeError`; any unrecognised status sleeps `interval`
seconds and loops. `none` means the fuel ran out before the loop ended. -/
def pollLoop (responses : Nat → PollResponse) (timeout : Int) (interval : Nat) :
    Nat → Nat → Option PollRun
  | _, 0 => none
  | k, fuel + 1 =>
    if ((k * interval : Nat) : Int) > timeout then
      some ⟨.timeoutErr, k, k, []⟩
    else
      match (responses k).status? with
      | none => some ⟨.attributeError, k + 1, k, []⟩
      | some s =>
        if pyLower s = "succeeded" then
          some ⟨.success (responses k), k + 1, k, []⟩
        else if pyLower s = "failed" then
          some ⟨.runtimeError "Request failed.", k + 1, k, [responses k]⟩
        else
          pollLoop responses timeout interval (k + 1) fuel

/-- `poll_result` of the client, run with enough fuel for the whole
timeout budget (proved sufficient in `poll_result_terminates_in_budget`). -/
def poll_result (responses : Nat → PollResponse) (timeout : Int) (interval : Nat) :
    Option PollRun :=
  pollLoop responses timeout interval 0 (timeout.toNat / interval + 2)

/-- Decidable statement of the C1 bounds: `poll_result` completes (the
fuel suffices), issues at most `timeout / interval + 1` status queries,
and its total sleeping time is at most `timeout + interval`. -/
def pollWithinBudget (responses : Nat → PollResponse) (timeout : Int) (interval : Nat) :
    Bool :=
  match poll_result responses timeout interval with
  | none => false
  | some r =>
    decide (r.queries ≤ timeout.toNat / interval + 1) &&
      decide (r.sleeps * interval ≤ timeout.toNat + interval)

/-- `SUPPORTED_FILE_TYPES_DOCUMENT_TXT` of the client. -/
def SUPPORTED_FILE_TYPES_DOCUMENT_TXT : List String :=
  [".pdf", ".tiff", ".jpg", ".jpeg", ".png", ".bmp", ".heif", ".docx",
   ".xlsx", ".pptx", ".txt", ".html", ".md", ".eml", ".msg", ".xml"]

/-- `SUPPORTED_FILE_TYPES_DOCUMENT` of the client (Pro mode / training). -/
def SUPPORTED_FILE_TYPES_DOCUMENT : List String :=
  [".pdf", ".tiff", ".jpg", ".jpeg", ".png", ".bmp", ".heif"]

/-- `is_supported_doc_type_by_file_ext`: membership of the lower-cased
extension in the list selected by `is_document`. -/
def is_supported_doc_type_by_file_ext (file_ext : String) (is_document : Bool) : Bool :=
  (if is_document then SUPPORTED_FILE_TYPES_DOCUMENT
   else SUPPORTED_FILE_TYPES_DOCUMENT_TXT).contains (pyLower file_ext)

/-- The extension part of `os.path.splitext` on a basename: the segment
from the last dot on, unless every character before that dot is itself a
dot (so `".hidden"` and `".."` have no extension, as in CPython). -/
def splitextExt (p : String) : String :=
  let cs := p.data
  let rest := cs.dropWhile (fun c => c = '.')
  if rest.contains '.' then
    String.mk ('.' :: (rest.reverse.takeWhile (fun c => c ≠ '.')).reverse)
  else ""

/-- `pathlib.PurePath.suffix` on a file name: `name[i:]` where `i` is the
index of the last dot, provided `0 < i < len(name) - 1`; otherwise `""`. -/
def pathSuffix (name : String) : String :=
  let cs := name.data
  match (cs.reverse.takeWhile (fun c => c ≠ '.')).length with
  | 0 => ""  -- name ends in a dot (or is empty): no suffix
  | tailLen =>
    if cs.contains '.' ∧ cs.length - tailLen - 1 > 0 then
      String.mk (cs.drop (cs.length - tailLen - 1))
    else ""

/-- The base64 alphabet used by `base64.b64encode`. -/
def b64Alphabet : List Char :=
  "ABCDEFGHIJKLMNOPQRSTUVWXYZabcdefghijklmnopqrstuvwxyz0123456789+/".data

/-- `base64.b64encode(bytes).decode("utf-8")` on a byte list (RFC 4648
with `=` padding). -/
def b64encode : List Nat → String
  | [] => ""
  | [a] =>
    String.mk [b64Alphabet.getD (a / 4) 'A',
               b64Alphabet.getD (a % 4 * 16) 'A'] ++ "=="
  | [a, b] =>
    String.mk [b64Alphabet.getD (a / 4) 'A',
               b64Alphabet.getD (a % 4 * 16 + b / 16) 'A',
               b64Alphabet.getD (b % 16 * 4) 'A'] ++ "="
  | a :: b :: c :: rest =>
    String.mk [b64Alphabet.getD (a / 4) 'A',
               b64Alphabet.getD (a % 4 * 16 + b / 16) 'A',
               b64Alphabet.getD (b % 16 * 4 + c / 64) 'A',
               b64Alphabet.getD (c % 64) 'A'] ++ b64encode rest

/-- Python exceptions that the modelled code can raise. -/
inductive PyError where
  | valueError (msg : String)
  | fileNotFoundError (msg : String)
  | isADirectoryError (path : String)
deriving DecidableEq, Repr

/-- True exactly for the `ValueError`s, the way the client signals
invalid input. -/
def PyError.isValueError : PyError → Bool
  | .valueError _ => true
  | _ => false

/-- One filesystem object found by `Path.rglob("*")` under a directory
target: its path parts relative to the root (`f.relative_to(dir).parts`),
whether it is a regular file, and its bytes. -/
structure DirEntry where
  parts : List String
  isFile : Bool
  bytes : List Nat
deriving DecidableEq, Repr

/-- One element of the `inputs` list of a Pro-mode batch body. -/
structure BatchInput where
  name : String
  data : String
deriving DecidableEq, Repr

/-- The request body `begin_analyze` / `begin_classify` build. -/
inductive RequestBody where
  | inputsBody (inputs : List BatchInput)
  | rawBytes (bs : List Nat)
  | urlBody (url : String)
deriving DecidableEq, Repr

/-- What the `file_location` string denotes on the local filesystem. -/
inductive PathKind where
  | file (bytes : List Nat)
  | dir (entries : List DirEntry)
  | absent
deriving Repr

/-- Substring containment, as Python `needle in haystack`. -/
def containsSub (hay needle : String) : Bool :=
  (List.range (hay.data.length + 1)).any
    (fun i => needle.data.isPrefixOf (hay.data.drop i))

/-- `is_supported_doc_type_by_file_path` on a `DirEntry` (the path's last
component carries the `pathlib` suffix, lower-cased in the source before
the list lookup). -/
def is_supported_doc_type_by_file_path (e : DirEntry) (is_document : Bool) : Bool :=
  e.isFile &&
    is_supported_doc_type_by_file_ext (pyLower (pathSuffix (e.parts.getLastD ""))) is_document

/-- The `inputs` list the directory branch of `begin_analyze` builds: a
comprehension over `rglob("*")` keeping only regular files whose suffix
is on the 7-extension document list, naming each by its relative path
parts joined with underscores, with base64-encoded contents. Unsupported
files are filtered out, not reported. -/
def begin_analyze_dir_inputs (entries : List DirEntry) : List BatchInput :=
  entries.filterMap (fun e =>
    if e.isFile && is_supported_doc_type_by_file_path e true then
      some ⟨String.intercalate "_" e.parts, b64encode e.bytes⟩
    else none)

/-- `begin_analyze` up to the POST: the body and `Content-Type` it would
send, or the exception it raises first. -/
def begin_analyze_request (file_location : String) :
    PathKind → Except PyError (RequestBody × String)
  | .dir entries =>
    .ok (.inputsBody (begin_analyze_dir_inputs entries), "application/json")
  | .file bs => .ok (.rawBytes bs, "application/octet-stream")
  | .absent =>
    if containsSub file_location "https://" || containsSub file_location "http://" then
      .ok (.urlBody file_location, "application/json")
    else
      .error (.valueError "File location must be a valid path or URL.")

/-- `begin_classify` up to the POST. On an existing directory the source
runs `open(file_location, "rb")`, which raises `IsADirectoryError`
before any request is made. -/
def begin_classify_request (file_location : String) :
    PathKind → Except PyError (RequestBody × String)
  | .file bs => .ok (.rawBytes bs, "application/octet-stream")
  | .dir _ => .error (.isADirectoryError file_location)
  | .absent =>
    if containsSub file_location "https://" || containsSub file_location "http://" then
      .ok (.urlBody file_location, "application/json")
    else
      .error (.valueError "File location must be a valid path or URL.")

/-- The `ReferenceDocItem` dataclass. -/
structure ReferenceDocItem where
  filename : String
  file_path : String
  result_file_name : String
  result_file_path : Option String := none
deriving DecidableEq, Repr

/-- `OCR_RESULT_FILE_SUFFIX` of the client. -/
def OCR_RESULT_FILE_SUFFIX : String := ".result.json"

/-- `KNOWLEDGE_SOURCE_LIST_FILE_NAME` of the client. -/
def KNOWLEDGE_SOURCE_LIST_FILE_NAME : String := "sources.jsonl"

/-- A folder as `os.walk` yields it: `(dirpath, filenames)` pairs in walk
order (directory entries are irrelevant to the modelled code). A file
named `n` in directory `d` exists at path `d ++ "/" ++ n`. -/
abbrev WalkTree : Type := List (String × List String)

/-- The error message `_get_analyze_list` / `_get_upload_only_list` use
for a file with an unsupported extension. -/
def unsupportedFileMsg (filename : String) : String :=
  "File \x27" ++ filename ++ "\x27 is not a supported document type, " ++
    "please remove it or convert it to a supported type."

/-- The inner loop of `_get_analyze_list` over one directory's
`filenames`: each supported file becomes a `ReferenceDocItem`; the first
unsupported extension raises `ValueError` naming that file. -/
def analyzeScan (dirpath : String) : List String → Except PyError (List ReferenceDocItem)
  | [] => .ok []
  | filename :: rest =>
    if is_supported_doc_type_by_file_ext (splitextExt filename) true then
      (analyzeScan dirpath rest).map (fun tail =>
        ⟨filename, dirpath ++ "/" ++ filename,
         filename ++ OCR_RESULT_FILE_SUFFIX, none⟩ :: tail)
    else
      .error (.valueError (unsupportedFileMsg filename))

/-- `_get_analyze_list`: the `os.walk` loop, concatenating per-directory
items and propagating the first error. -/
def get_analyze_list : WalkTree → Except PyError (List ReferenceDocItem)
  | [] => .ok []
  | (dirpath, filenames) :: rest => do
    let xs ← analyzeScan dirpath filenames
    let ys ← get_analyze_list rest
    .ok (xs ++ ys)

/-- Python `str.endswith` (one suffix argument). -/
def pyEndsWith (s sfx : String) : Bool := sfx.data.isSuffixOf s.data

/-- Left-to-right, non-overlapping replacement of `old` by `new`, as
Python `str.replace` (for non-empty `old`). The fuel argument makes the
recursion structural; every step consumes at least one character, so
fuel equal to the list length never runs out. -/
def replaceFuel (old new : List Char) : Nat → List Char → List Char
  | _, [] => []
  | 0, l => l
  | fuel + 1, c :: rest =>
    if old ≠ [] ∧ old.isPrefixOf (c :: rest) then
      new ++ replaceFuel old new fuel (rest.drop (old.length - 1))
    else c :: replaceFuel old new fuel rest

/-- Python `str.replace` on strings. -/
def pyReplace (s old new : String) : String :=
  String.mk (replaceFuel old.data new.data s.data.length s.data)

/-- The inner loop of `_get_upload_only_list` over one directory. The
membership tests consult the full `filenames` listing of the directory
(`os.path.exists` for the sibling result file, `in filenames` for the
original of a result artifact), while the recursion walks the remaining
files. -/
def uploadOnlyScan (dirpath : String) (filenames : List String) :
    List String → Except PyError (List ReferenceDocItem)
  | [] => .ok []
  | filename :: rest =>
    if is_supported_doc_type_by_file_ext (splitextExt filename) true then
      let result_file_name := filename ++ OCR_RESULT_FILE_SUFFIX
      if filenames.contains result_file_name then
        (uploadOnlyScan dirpath filenames rest).map (fun tail =>
          ⟨filename, dirpath ++ "/" ++ filename, result_file_name,
           some (dirpath ++ "/" ++ result_file_name)⟩ :: tail)
      else
        .error (.fileNotFoundError
          ("Result file \x27" ++ result_file_name ++ "\x27 does not exist in \x27" ++
            dirpath ++ "\x27. Please run analyze first or remove this file from the folder."))
    else if pyEndsWith filename OCR_RESULT_FILE_SUFFIX then
      let original_filename := pyReplace filename OCR_RESULT_FILE_SUFFIX ""
      if filenames.contains original_filename then
        if is_supported_doc_type_by_file_ext (splitextExt original_filename) true then
          uploadOnlyScan dirpath filenames rest
        else
          .error (.valueError
            ("The \x27" ++ original_filename ++ "\x27 is not a supported document type, " ++
              "please remove the result file \x27" ++ filename ++ "\x27 and \x27" ++
              original_filename ++ "\x27."))
      else
        .error (.valueError
          ("Result file \x27" ++ filename ++
            "\x27 is not corresponding to an original file, please remove it."))
    else
      .error (.valueError (unsupportedFileMsg filename))

/-- `_get_upload_only_list`: the `os.walk` loop. -/
def get_upload_only_list : WalkTree → Except PyError (List ReferenceDocItem)
  | [] => .ok []
  | (dirpath, filenames) :: rest => do
    let xs ← uploadOnlyScan dirpath filenames filenames
    let ys ← get_upload_only_list rest
    .ok (xs ++ ys)

/-- One `{"file": ..., "resultFile": ...}` record of `sources.jsonl`. -/
structure ManifestRecord where
  file : String
  resultFile : String
deriving DecidableEq, Repr

/-- What one blob upload carried: a local file copy
(`_upload_file_to_blob`), a JSON analyze result (`_upload_json_to_blob`),
or the manifest records (`upload_jsonl_to_blob`). -/
inductive UploadContent where
  | fileCopy (srcPath : String)
  | jsonContent (result : Nat)
  | jsonlContent (records : List ManifestRecord)
deriving DecidableEq, Repr

/-- One blob upload: target blob path and content. -/
structure BlobUpload where
  path : String
  content : UploadContent
deriving DecidableEq, Repr

/-- The observable effect of one `generate_knowledge_base_on_blob` call:
how it ended, the blob uploads it performed in order, and the files it
issued analyze network calls for, in order. -/
structure RunTrace where
  result : Except PyError Unit
  uploads : List BlobUpload
  analyzeCalls : List String
deriving Repr

/-- The analyze-mode loop body of `generate_knowledge_base_on_blob`: for
each item call `get_prebuilt_document_analyze_result` (the `oracle`,
returning the analyze payload or the exception the submit/poll chain
raised), upload the result JSON then the source file, and append the
manifest record. A failure stops the loop and re-raises. -/
def analyzeLoop (oracle : String → Except PyError Nat) (pfx : String) :
    List ReferenceDocItem →
      Except PyError (List ManifestRecord) × List BlobUpload × List String
  | [] => (.ok [], [], [])
  | item :: rest =>
    match oracle item.file_path with
    | .error e => (.error e, [], [item.file_path])
    | .ok r =>
      let step := analyzeLoop oracle pfx rest
      (step.1.map (fun recs => ⟨item.filename, item.result_file_name⟩ :: recs),
       ⟨pfx ++ item.result_file_name, .jsonContent r⟩ ::
         ⟨pfx ++ item.filename, .fileCopy item.file_path⟩ :: step.2.1,
       item.file_path :: step.2.2)

/-- The upload-only loop body: upload the source file then its existing
result file, and append the manifest record. -/
def uploadOnlyLoop (pfx : String) (items : List ReferenceDocItem) :
    List ManifestRecord × List BlobUpload :=
  (items.map (fun item => ⟨item.filename, item.result_file_name⟩),
   items.flatMap (fun item =>
     [⟨pfx ++ item.filename, .fileCopy item.file_path⟩,
      ⟨pfx ++ item.result_file_name, .fileCopy (item.result_file_path.getD "")⟩]))

/-- Normalisation of `storage_container_path_prefix`: append `"/"` when
missing. -/
def normalizePathPfx (p : String) : String :=
  if pyEndsWith p "/" then p else p ++ "/"

/-- `generate_knowledge_base_on_blob`: pre-flight list building, the
per-file loop of the selected mode, and finally the `sources.jsonl`
upload. A pre-flight or per-file failure re-raises before the manifest
upload is reached. -/
def generate_knowledge_base_on_blob (walk : WalkTree) (pfx : String)
    (oracle : String → Except PyError Nat) (skip_analyze : Bool) : RunTrace :=
  let p := normalizePathPfx pfx
  if skip_analyze then
    match get_upload_only_list walk with
    | .error e => ⟨.error e, [], []⟩
    | .ok items =>
      let (recs, ups) := uploadOnlyLoop p items
      ⟨.ok (), ups ++ [⟨p ++ KNOWLEDGE_SOURCE_LIST_FILE_NAME, .jsonlContent recs⟩], []⟩
  else
    match get_analyze_list walk with
    | .error e => ⟨.error e, [], []⟩
    | .ok items =>
      match analyzeLoop oracle p items with
      | (.error e, ups, calls) => ⟨.error e, ups, calls⟩
      | (.ok recs, ups, calls) =>
        ⟨.ok (), ups ++ [⟨p ++ KNOWLEDGE_SOURCE_LIST_FILE_NAME, .jsonlContent recs⟩], calls⟩

/-- `json.dumps` string escaping, restricted to the two characters that
can occur in the file names the manifest records hold (backslash and
double quote; `json.dumps` additionally escapes control and non-ASCII
characters, which the round-trip theorem excludes by hypothesis). -/
def jsonEscape (s : String) : String :=
  String.mk (s.data.flatMap (fun c => if c = '\\' ∨ c = '"' then ['\\', c] else [c]))

/-- `json.dumps({"file": ..., "resultFile": ...})` with CPython's default
separators and key order. -/
def dumpRecord (r : ManifestRecord) : String :=
  "\x7b\"file\": \"" ++ jsonEscape r.file ++ "\", \"resultFile\": \"" ++
    jsonEscape r.resultFile ++ "\"\x7d"

/-- The `sources.jsonl` blob contents built by `upload_jsonl_to_blob`:
`"\n".join(json.dumps(record) for record in data_list)`. -/
def upload_jsonl_content (records : List ManifestRecord) : String :=
  String.intercalate "\n" (records.map dumpRecord)

/-- A string free of backslashes and double quotes, so that `json.dumps`
serialises it verbatim. -/
def plainStr (s : String) : Bool :=
  s.data.all (fun c => ¬(c = '\\' ∨ c = '"'))

/-- Strip an expected literal from the front of a character list. -/
def dropLit (lit : List Char) (l : List Char) : Option (List Char) :=
  if lit.isPrefixOf l then some (l.drop lit.length) else none

/-- Scan up to the next double quote, returning the scanned characters
and the remainder after the quote. -/
def takeUntilQuote : List Char → Option (List Char × List Char)
  | [] => none
  | c :: rest =>
    if c = '"' then some ([], rest)
    else (takeUntilQuote rest).map (fun p => (c :: p.1, p.2))

/-- Parse one manifest line of the exact shape `dumpRecord` emits (for
quote-and-backslash-free field values). -/
def parseRecordLine (line : String) : Option ManifestRecord :=
  match dropLit ("\x7b\"file\": \"").data line.data with
  | none => none
  | some r1 =>
    match takeUntilQuote r1 with
    | none => none
    | some (f, r2) =>
      match dropLit (", \"resultFile\": \"").data r2 with
      | none => none
      | some r3 =>
        match takeUntilQuote r3 with
        | none => none
        | some (rf, r4) =>
          if r4 = ['\x7d'] then some ⟨String.mk f, String.mk rf⟩ else none

/-- The first file of the walk whose `os.path.splitext` extension is not
on the 7-extension document list, if any. -/
def firstUnsupportedFile (walk : WalkTree) : Option String :=
  walk.findSome? (fun p =>
    p.2.find? (fun fn => ! is_supported_doc_type_by_file_ext (splitextExt fn) true))

/-- Whether some directory of the walk lists this file name. -/
def folderContains (walk : WalkTree) (fn : String) : Bool :=
  walk.any (fun p => p.2.contains fn)

/-- The items the batch driver iterates over in the given mode, or `[]`
when the pre-flight list builder raises. -/
def batchItems (walk : WalkTree) (skip_analyze : Bool) : List ReferenceDocItem :=
  match (if skip_analyze then get_upload_only_list walk else get_analyze_list walk) with
  | .ok items => items
  | .error _ => []

/-- Whether an `Except` from a pre-flight list builder succeeded. -/
def listBuildOk : Except PyError (List ReferenceDocItem) → Bool
  | .ok _ => true
  | .error _ => false

/-- The status sequence `[Running, running, Succeeded]` (mixed case, to
exercise the case-insensitive comparison), `running` afterwards. -/
def seqA : Nat → PollResponse := fun n =>
  match n with
  | 0 => ⟨some "Running", 10⟩
  | 1 => ⟨some "running", 11⟩
  | 2 => ⟨some "Succeeded", 12⟩
  | _ => ⟨some "running", 99⟩

/-- The status sequence that reports `FAILED` immediately, payload 5. -/
def seqB : Nat → PollResponse := fun _ => ⟨some "FAILED", 5⟩

/-- A status sequence that reports `failed` immediately with a different
payload, 7. -/
def seqB7 : Nat → PollResponse := fun _ => ⟨some "failed", 7⟩

/-- A constantly-`running` status sequence. -/
def seqRunning : Nat → PollResponse := fun _ => ⟨some "running", 0⟩

/-- A status sequence whose first response has no `status` field. -/
def seqNoStatus : Nat → PollResponse := fun _ => ⟨none, 3⟩

/-- One-step unfolding of `pollLoop` at positive fuel. -/
theorem pollLoop_step (responses : Nat → PollResponse) (timeout : Int)
    (interval k fuel : Nat) :
    pollLoop responses timeout interval k (fuel + 1) =
      if ((k * interval : Nat) : Int) > timeout then
        some ⟨.timeoutErr, k, k, []⟩
      else
        match (responses k).status? with
        | none => some ⟨.attributeError, k + 1, k, []⟩
        | some s =>
          if pyLower s = "succeeded" then
            some ⟨.success (responses k), k + 1, k, []⟩
          else if pyLower s = "failed" then
            some ⟨.runtimeError "Request failed.", k + 1, k, [responses k]⟩
          else
            pollLoop responses timeout interval (k + 1) fuel := rfl

/-- C3: at the top of every loop iteration of `poll_result`, if the
elapsed time (here `k * interval` after `k` completed iterations)
exceeds `timeout_seconds`, the call raises `TimeoutError` with exactly
the `k` status queries already issued — the deadline check precedes the
query, so no further request is sent; with `k = 0` this covers raising
before the first query. -/
theorem poll_timeout_check_precedes_query
    (responses : Nat → PollResponse) (timeout : Int) (interval k fuel : Nat)
    (h : ((k * interval : Nat) : Int) > timeout) :
    pollLoop responses timeout interval k (fuel + 1) =
      some ⟨.timeoutErr, k, k, []⟩ := by
  rw [pollLoop_step, if_pos h]

/-- C3 witness: with `timeout_seconds = -1` the elapsed time already
exceeds the timeout before the first query, and `poll_result` raises
`TimeoutError` having issued zero status queries. -/
theorem poll_timeout_check_precedes_query_witness :
    pollLoop seqRunning (-1) 2 0 1 = some ⟨.timeoutErr, 0, 0, []⟩ :=
  poll_timeout_check_precedes_query seqRunning (-1) 2 0 0 (by decide)

/-- C4: `poll_result` dispatches on the case-insensitively compared
status of each 2xx response: within the budget, `succeeded` returns the
full payload of that same query with no further query and no sleep;
`failed` raises on that same query with no sleep; any other status
sleeps one `polling_interval_seconds` and loops. Consequently the
sequence `[Running, running, Succeeded]` with interval 2 and timeout 120
issues exactly 3 queries, returns the third payload and sleeps twice
(4 seconds total), and the sequence `[FAILED, ...]` raises on the first
query with no sleep. -/
theorem poll_status_dispatch :
    (∀ (responses : Nat → PollResponse) (timeout : Int) (interval k fuel : Nat) (s : String),
        ¬((k * interval : Nat) : Int) > timeout → (responses k).status? = some s →
        pyLower s = "succeeded" →
        pollLoop responses timeout interval k (fuel + 1) =
          some ⟨.success (responses k), k + 1, k, []⟩) ∧
    (∀ (responses : Nat → PollResponse) (timeout : Int) (interval k fuel : Nat) (s : String),
        ¬((k * interval : Nat) : Int) > timeout → (responses k).status? = some s →
        pyLower s = "failed" →
        pollLoop responses timeout interval k (fuel + 1) =
          some ⟨.runtimeError "Request failed.", k + 1, k, [responses k]⟩) ∧
    (∀ (responses : Nat → PollResponse) (timeout : Int) (interval k fuel : Nat) (s : String),
        ¬((k * interval : Nat) : Int) > timeout → (responses k).status? = some s →
        pyLower s ≠ "succeeded" → pyLower s ≠ "failed" →
        pollLoop responses timeout interval k (fuel + 1) =
          pollLoop responses timeout interval (k + 1) fuel) ∧
    poll_result seqA 120 2 = some ⟨.success ⟨some "Succeeded", 12⟩, 3, 2, []⟩ ∧
    poll_result seqB 120 2 =
      some ⟨.runtimeError "Request failed.", 1, 0, [⟨some "FAILED", 5⟩]⟩ := by
  refine ⟨?_, ?_, ?_, by decide, by decide⟩
  · intro responses timeout interval k fuel s hne hs hsucc
    rw [pollLoop_step, if_neg hne, hs]
    simp [hsucc]
  · intro responses timeout interval k fuel s hne hs hfail
    rw [pollLoop_step, if_neg hne, hs]
    simp [hfail]
  · intro responses timeout interval k fuel s hne hs h1 h2
    rw [pollLoop_step, if_neg hne, hs]
    simp [h1, h2]

/-- C4 witness: the `succeeded` dispatch rule applied at the third query
of `seqA` within the 120-second budget. -/
theorem poll_status_dispatch_witness :
    pollLoop seqA 120 2 2 60 = some ⟨.success (seqA 2), 3, 2, []⟩ :=
  poll_status_dispatch.1 seqA 120 2 2 59 "Succeeded" (by decide) rfl (by decide)

/-- C5 counterexample: the claim says the raised error carries the
service-reported failure payload, but the source raises the constant
`RuntimeError("Request failed.")`: two runs whose failure payloads
differ (5 versus 7) raise equal errors, so the raised error preserves no
payload — the payload goes only to the error log. -/
theorem poll_failed_error_lacks_payload :
    (poll_result seqB 120 2).map PollRun.outcome =
      some (.runtimeError "Request failed.") ∧
    (poll_result seqB7 120 2).map PollRun.outcome =
      some (.runtimeError "Request failed.") ∧
    seqB 0 ≠ seqB7 0 := by
  decide

/-- C5 amended: on a `failed` status (case-insensitive) within the
budget, `poll_result` raises the terminal constant
`RuntimeError("Request failed.")` on that same query and stops — no
further query, so the operation is never retried; the service-reported
failure payload is preserved only in the error log
(`self._logger.error`), not in the raised error. -/
theorem poll_failed_raises_terminal_error
    (responses : Nat → PollResponse) (timeout : Int) (interval k fuel : Nat) (s : String)
    (hne : ¬((k * interval : Nat) : Int) > timeout)
    (hs : (responses k).status? = some s) (hfail : pyLower s = "failed") :
    pollLoop responses timeout interval k (fuel + 1) =
      some ⟨.runtimeError "Request failed.", k + 1, k, [responses k]⟩ := by
  rw [pollLoop_step, if_neg hne, hs]
  simp [hfail]

/-- C5 witness: the `failed` rule applied to `seqB7` at its first query. -/
theorem poll_failed_raises_terminal_error_witness :
    pollLoop seqB7 120 2 0 61 =
      some ⟨.runtimeError "Request failed.", 1, 0, [⟨some "failed", 7⟩]⟩ :=
  poll_failed_raises_terminal_error seqB7 120 2 0 60 "failed" (by decide) rfl (by decide)

/-- C10: when a 2xx status response has no `status` field,
`response.json().get("status")` is `None` and `.lower()` raises an
untyped `AttributeError`: the iteration terminates the call with
`attributeError` after issuing that query, neither looping (the
treat-unknown-as-running path needs an actual status string) nor raising
one of the typed errors. -/
theorem poll_missing_status_attribute_error
    (responses : Nat → PollResponse) (timeout : Int) (interval k fuel : Nat)
    (hne : ¬((k * interval : Nat) : Int) > timeout)
    (hs : (responses k).status? = none) :
    pollLoop responses timeout interval k (fuel + 1) =
      some ⟨.attributeError, k + 1, k, []⟩ := by
  rw [pollLoop_step, if_neg hne, hs]

/-- C10 witness: a first response without `status` raises
`AttributeError` at the first query. -/
theorem poll_missing_status_attribute_error_witness :
    pollLoop seqNoStatus 120 2 0 61 = some ⟨.attributeError, 1, 0, []⟩ :=
  poll_missing_status_attribute_error seqNoStatus 120 2 0 60 (by decide) rfl

/-- One-step unfolding of `pollLoop` when the deadline has not passed and
the response carries a status string. -/
theorem pollLoop_step_some (responses : Nat → PollResponse) (timeout : Int)
    (interval k fuel : Nat) (s : String)
    (hne : ¬((k * interval : Nat) : Int) > timeout)
    (hst : (responses k).status? = some s) :
    pollLoop responses timeout interval k (fuel + 1) =
      if pyLower s = "succeeded" then
        some ⟨.success (responses k), k + 1, k, []⟩
      else if pyLower s = "failed" then
        some ⟨.runtimeError "Request failed.", k + 1, k, [responses k]⟩
      else
        pollLoop responses timeout interval (k + 1) fuel := by
  rw [pollLoop_step, if_neg hne, hst]

/-- Fuel sufficiency and budget bounds for `pollLoop`: with a positive
interval, enough fuel, and an iteration index still inside the extended
budget, the loop reaches an outcome whose query count and total sleep
time are bounded by the polling policy. -/
theorem pollLoop_bounds (responses : Nat → PollResponse) (timeout : Int)
    (interval : Nat) (hi : 1 ≤ interval) :
    ∀ fuel k, timeout.toNat / interval + 1 < fuel + k →
      k * interval ≤ timeout.toNat + interval →
      ∃ r, pollLoop responses timeout interval k fuel = some r ∧
        r.queries ≤ timeout.toNat / interval + 1 ∧
        r.sleeps * interval ≤ timeout.toNat + interval := by
  intro fuel
  induction fuel with
  | zero =>
    intro k hfuel hk
    exfalso
    have hk' : k ≤ (timeout.toNat + interval) / interval :=
      (Nat.le_div_iff_mul_le (Nat.lt_of_lt_of_le Nat.zero_lt_one hi)).mpr hk
    rw [Nat.add_div_right _ (Nat.lt_of_lt_of_le Nat.zero_lt_one hi)] at hk'
    omega
  | succ fuel ih =>
    intro k hfuel hk
    by_cases hc : ((k * interval : Nat) : Int) > timeout
    · rw [pollLoop_step, if_pos hc]
      refine ⟨_, rfl, ?_, ?_⟩
      · have hk' : k ≤ (timeout.toNat + interval) / interval :=
          (Nat.le_div_iff_mul_le (Nat.lt_of_lt_of_le Nat.zero_lt_one hi)).mpr hk
        rw [Nat.add_div_right _ (Nat.lt_of_lt_of_le Nat.zero_lt_one hi)] at hk'
        exact hk'
      · exact hk
    · have hin : k * interval ≤ timeout.toNat := by omega
      have hkdiv : k ≤ timeout.toNat / interval :=
        (Nat.le_div_iff_mul_le (Nat.lt_of_lt_of_le Nat.zero_lt_one hi)).mpr hin
      match hst : (responses k).status? with
      | none =>
        rw [pollLoop_step, if_neg hc, hst]
        refine ⟨_, rfl, ?_, ?_⟩ <;> simp <;> omega
      | some s =>
        rw [pollLoop_step_some responses timeout interval k fuel s hc hst]
        by_cases h1 : pyLower s = "succeeded"
        · rw [if_pos h1]
          refine ⟨_, rfl, ?_, ?_⟩ <;> simp <;> omega
        · rw [if_neg h1]
          by_cases h2 : pyLower s = "failed"
          · rw [if_pos h2]
            refine ⟨_, rfl, ?_, ?_⟩ <;> simp <;> omega
          · rw [if_neg h2]
            exact ih (k + 1) (by omega) (by
              have : (k + 1) * interval = k * interval + interval := by ring
              omega)

/-- C1: for every status sequence, every `timeout_seconds` and every
positive `polling_interval_seconds`, `poll_result` terminates with an
outcome (a payload, a raised terminal error, or `TimeoutError`) after at
most `timeout / interval + 1` status queries, having slept at most
`timeout + interval` seconds in total — so in the idealised clock model
it finishes within `timeoutSeconds + intervalSeconds` of wall-clock
time. -/
theorem poll_result_terminates_in_budget (responses : Nat → PollResponse)
    (timeout : Int) (interval : Nat) (hi : 1 ≤ interval) :
    pollWithinBudget responses timeout interval = true := by
  obtain ⟨r, hr, h1, h2⟩ :=
    pollLoop_bounds responses timeout interval hi
      (timeout.toNat / interval + 2) 0 (by omega) (by omega)
  unfold pollWithinBudget poll_result
  rw [hr]
  simp [h1, h2]

/-- C1 witness: the budget bound evaluated on the constantly-`running`
sequence with timeout 7 and interval 2. -/
theorem poll_result_terminates_in_budget_witness :
    pollWithinBudget seqRunning 7 2 = true :=
  poll_result_terminates_in_budget seqRunning 7 2 (by decide)

/-- The directory target `[a.pdf (bytes 1 2 3, file), b.exe (byte 77,
file)]`. -/
def dirEntriesAB : List DirEntry :=
  [⟨["a.pdf"], true, [1, 2, 3]⟩, ⟨["b.exe"], true, [77]⟩]

/-- C2 counterexample: the claim says a file with an out-of-list
extension anywhere in the tree makes the directory build fail, but
`begin_analyze` on a directory containing `b.exe` succeeds: the list
comprehension silently filters `b.exe` out and produces only the
`a.pdf` entry. -/
theorem begin_analyze_dir_skips_counterexample :
    begin_analyze_request "docs" (.dir dirEntriesAB) =
      .ok (.inputsBody [⟨"a.pdf", "AQID"⟩], "application/json") := rfl

/-- C2 amended: for every directory target, `begin_analyze` always
succeeds with a JSON `inputs` body; every produced entry's name is the
underscore-joined relative path of a regular file with an allow-listed
extension and its value is the base64 encoding of the file's bytes, and
no entry is produced for a file whose extension is outside the
7-extension document allow-list — but such files are silently skipped
rather than failing the whole directory. -/
theorem begin_analyze_dir_entries :
    (∀ (loc : String) (entries : List DirEntry),
        begin_analyze_request loc (.dir entries) =
          .ok (.inputsBody (begin_analyze_dir_inputs entries), "application/json")) ∧
    (∀ (entries : List DirEntry) (e : DirEntry), e ∈ entries → e.isFile = true →
        is_supported_doc_type_by_file_path e true = true →
        (⟨String.intercalate "_" e.parts, b64encode e.bytes⟩ : BatchInput) ∈
          begin_analyze_dir_inputs entries) ∧
    (∀ (entries : List DirEntry) (x : BatchInput),
        x ∈ begin_analyze_dir_inputs entries →
        ∃ e, e ∈ entries ∧ e.isFile = true ∧
          is_supported_doc_type_by_file_path e true = true ∧
          x = ⟨String.intercalate "_" e.parts, b64encode e.bytes⟩) := by
  refine ⟨fun loc entries => rfl, ?_, ?_⟩
  · intro entries e he hf hsupp
    simp only [begin_analyze_dir_inputs, List.mem_filterMap]
    exact ⟨e, he, by rw [hf, hsupp]; rfl⟩
  · intro entries x hx
    simp only [begin_analyze_dir_inputs, List.mem_filterMap] at hx
    obtain ⟨e, he, heq⟩ := hx
    by_cases hc : (e.isFile && is_supported_doc_type_by_file_path e true) = true
    · rw [if_pos hc] at heq
      obtain ⟨hf, hs⟩ := Bool.and_eq_true_iff.mp hc
      exact ⟨e, he, hf, hs, (Option.some.injEq _ _ ▸ heq).symm⟩
    · rw [if_neg hc] at heq
      exact absurd heq (Option.noConfusion)

/-- C2 witness: the completeness direction applied to the `a.pdf` entry
of `dirEntriesAB`. -/
theorem begin_analyze_dir_entries_witness :
    (⟨String.intercalate "_" ["a.pdf"], b64encode [1, 2, 3]⟩ : BatchInput) ∈
      begin_analyze_dir_inputs dirEntriesAB :=
  begin_analyze_dir_entries.2.1 dirEntriesAB ⟨["a.pdf"], true, [1, 2, 3]⟩
    (by decide) rfl (by decide)

/-- C9 counterexample: the claim says `begin_classify` rejects an
existing directory with an invalid-input error (the client's
invalid-input signal is `ValueError("File location must be a valid path
or URL.")`), but on a directory the source reaches
`open(file_location, "rb")`, which raises `IsADirectoryError` instead. -/
theorem begin_classify_dir_counterexample :
    begin_classify_request "docs" (.dir dirEntriesAB) =
      .error (.isADirectoryError "docs") ∧
    PyError.isValueError (.isADirectoryError "docs") = false ∧
    begin_classify_request "docs" (.dir dirEntriesAB) ≠
      .error (.valueError "File location must be a valid path or URL.") :=
  ⟨rfl, rfl, fun h => PyError.noConfusion (Except.error.inj h)⟩

/-- C9 amended: for every existing directory path given to
`begin_classify`, the call fails immediately — before building a request
body, so before any network call — but with the untyped
`IsADirectoryError` raised by `open()` on a directory, not with the
typed invalid-input `ValueError`. -/
theorem begin_classify_rejects_directory (loc : String) (entries : List DirEntry) :
    begin_classify_request loc (.dir entries) = .error (.isADirectoryError loc) ∧
    PyError.isValueError (.isADirectoryError loc) = false :=
  ⟨rfl, rfl⟩

/-- If the scan of one directory's `filenames` hits an unsupported
extension first at `bad`, `analyzeScan` raises the `ValueError` naming
`bad`. -/
theorem analyzeScan_error_of_find (dirpath : String) :
    ∀ (fns : List String) (bad : String),
      fns.find? (fun fn => ! is_supported_doc_type_by_file_ext (splitextExt fn) true) =
        some bad →
      analyzeScan dirpath fns = .error (.valueError (unsupportedFileMsg bad)) := by
  intro fns
  induction fns with
  | nil => intro bad h; simp at h
  | cons fn rest ih =>
    intro bad h
    by_cases hs : is_supported_doc_type_by_file_ext (splitextExt fn) true
    · rw [List.find?_cons_of_neg _ (by simp [hs])] at h
      simp only [analyzeScan, hs, if_true]
      rw [ih bad h]
      rfl
    · rw [List.find?_cons_of_pos _ (by simp [hs])] at h
      cases h
      simp only [analyzeScan, hs, if_false, Bool.false_eq_true]

/-- If one directory's scan finds no unsupported extension, it returns a
list of items. -/
theorem analyzeScan_ok_of_none (dirpath : String) :
    ∀ fns : List String,
      fns.find? (fun fn => ! is_supported_doc_type_by_file_ext (splitextExt fn) true) =
        none →
      ∃ xs, analyzeScan dirpath fns = .ok xs := by
  intro fns
  induction fns with
  | nil => exact fun _ => ⟨[], rfl⟩
  | cons fn rest ih =>
    intro h
    rw [List.find?_eq_none] at h
    have hs : is_supported_doc_type_by_file_ext (splitextExt fn) true = true := by
      have := h fn (by simp)
      simpa using this
    obtain ⟨xs, hxs⟩ := ih (List.find?_eq_none.mpr (fun x hx => h x (by simp [hx])))
    exact ⟨⟨fn, dirpath ++ "/" ++ fn, fn ++ OCR_RESULT_FILE_SUFFIX, none⟩ :: xs,
      by simp only [analyzeScan, hs, if_true]; rw [hxs]; rfl⟩

/-- If the walk contains an unsupported file, `_get_analyze_list` raises
the `ValueError` naming the first one. -/
theorem get_analyze_list_error :
    ∀ (walk : WalkTree) (bad : String), firstUnsupportedFile walk = some bad →
      get_analyze_list walk = .error (.valueError (unsupportedFileMsg bad)) := by
  intro walk
  induction walk with
  | nil => intro bad h; simp [firstUnsupportedFile] at h
  | cons p rest ih =>
    intro bad h
    obtain ⟨d, fns⟩ := p
    cases hf : fns.find?
        (fun fn => ! is_supported_doc_type_by_file_ext (splitextExt fn) true) with
    | some b =>
      have hb : b = bad := by
        rw [firstUnsupportedFile,
          List.findSome?_cons_of_isSome _ (by simp [hf])] at h
        simpa [hf] using h
      subst hb
      simp only [get_analyze_list]
      rw [analyzeScan_error_of_find d fns b hf]
      rfl
    | none =>
      have h2 : firstUnsupportedFile rest = some bad := by
        rw [firstUnsupportedFile,
          List.findSome?_cons_of_isNone _ (by simp [hf])] at h
        exact h
      obtain ⟨xs, hxs⟩ := analyzeScan_ok_of_none d fns hf
      simp only [get_analyze_list]
      rw [hxs, ih bad h2]
      rfl

/-- C6: in an analyze-mode batch (`skip_analyze=False`), any file under
the input folder with an extension outside the 7-extension document
allow-list makes the run fail with the `ValueError` naming the first
offending file, during pre-flight enumeration: the run performs zero
analyze network calls and zero blob uploads, for every polling oracle. -/
theorem analyze_batch_preflight_rejects_unsupported :
    (∀ walk : WalkTree,
        (∃ p, p ∈ walk ∧ ∃ fn, fn ∈ p.2 ∧
          is_supported_doc_type_by_file_ext (splitextExt fn) true = false) →
        (firstUnsupportedFile walk).isSome = true) ∧
    (∀ (walk : WalkTree) (pfx : String) (oracle : String → Except PyError Nat)
        (bad : String), firstUnsupportedFile walk = some bad →
        folderContains walk bad = true ∧
        is_supported_doc_type_by_file_ext (splitextExt bad) true = false ∧
        generate_knowledge_base_on_blob walk pfx oracle false =
          ⟨.error (.valueError (unsupportedFileMsg bad)), [], []⟩) := by
  constructor
  · intro walk hex
    obtain ⟨p, hp, fn, hfn, hsupp⟩ := hex
    cases hq : firstUnsupportedFile walk with
    | some b => rfl
    | none =>
      exfalso
      rw [firstUnsupportedFile, List.findSome?_eq_none_iff] at hq
      have := List.find?_eq_none.mp (hq p hp) fn hfn
      simp [hsupp] at this
  · intro walk pfx oracle bad h
    obtain ⟨p, hp, hfind⟩ := List.exists_of_findSome?_eq_some h
    have hbadmem : bad ∈ p.2 := List.mem_of_find?_eq_some hfind
    have hbadns : is_supported_doc_type_by_file_ext (splitextExt bad) true = false := by
      have := List.find?_some hfind
      simpa using this
    refine ⟨?_, hbadns, ?_⟩
    · simp only [folderContains, List.any_eq_true]
      exact ⟨p, hp, List.elem_eq_true_of_mem hbadmem⟩
    · simp only [generate_knowledge_base_on_blob, Bool.false_eq_true, if_false]
      rw [get_analyze_list_error walk bad h]

/-- The walk `{docs: [a.pdf, b.exe]}` of the C6 scenario. -/
def walkAB : WalkTree := [("docs", ["a.pdf", "b.exe"])]

/-- An analyze oracle that always succeeds with payload 0. -/
def oracleOk : String → Except PyError Nat := fun _ => .ok 0

/-- C6 witness: over `{a.pdf, b.exe}` the analyze-mode run fails naming
`b.exe` with no network call and no upload. -/
theorem analyze_batch_preflight_rejects_unsupported_witness :
    folderContains walkAB "b.exe" = true ∧
    is_supported_doc_type_by_file_ext (splitextExt "b.exe") true = false ∧
    generate_knowledge_base_on_blob walkAB "kb" oracleOk false =
      ⟨.error (.valueError (unsupportedFileMsg "b.exe")), [], []⟩ :=
  analyze_batch_preflight_rejects_unsupported.2 walkAB "kb" oracleOk "b.exe" rfl


/-- A file that makes `_get_upload_only_list` raise when scanned against
directory listing `fns`: a supported file whose sibling result artifact
is missing, a result artifact whose original is missing or unsupported,
or a file that is neither supported nor a result artifact. -/
def offendingUploadFile (fns : List String) (fn : String) : Bool :=
  if is_supported_doc_type_by_file_ext (splitextExt fn) true then
    ! fns.contains (fn ++ OCR_RESULT_FILE_SUFFIX)
  else if pyEndsWith fn OCR_RESULT_FILE_SUFFIX then
    (! fns.contains (pyReplace fn OCR_RESULT_FILE_SUFFIX "")) ||
      (! is_supported_doc_type_by_file_ext
          (splitextExt (pyReplace fn OCR_RESULT_FILE_SUFFIX "")) true)
  else true

/-- `listBuildOk` ignores `Except.map`. -/
theorem listBuildOk_map (x : Except PyError (List ReferenceDocItem))
    (f : List ReferenceDocItem → List ReferenceDocItem) :
    listBuildOk (x.map f) = listBuildOk x := by
  cases x <;> rfl

/-- A directory scan containing an offending file cannot succeed. -/
theorem uploadOnlyScan_error_of_offending (d : String) (fns : List String) :
    ∀ (todo : List String) (fn : String), fn ∈ todo →
      offendingUploadFile fns fn = true →
      listBuildOk (uploadOnlyScan d fns todo) = false := by
  intro todo
  induction todo with
  | nil => intro fn h; exact absurd h (List.not_mem_nil fn)
  | cons hd rest ih =>
    intro fn hmem hoff
    by_cases hs : is_supported_doc_type_by_file_ext (splitextExt hd) true = true
    · by_cases hc : fns.contains (hd ++ OCR_RESULT_FILE_SUFFIX) = true
      · simp only [uploadOnlyScan, hs, if_true, hc, listBuildOk_map]
        rcases List.mem_cons.mp hmem with heq | hrest
        · subst heq
          rw [offendingUploadFile, if_pos hs, hc] at hoff
          simp at hoff
        · exact ih fn hrest hoff
      · have hc' : fns.contains (hd ++ OCR_RESULT_FILE_SUFFIX) = false := by
          simpa using hc
        simp only [uploadOnlyScan, hs, if_true, hc', Bool.false_eq_true, if_false]
        rfl
    · have hs' : is_supported_doc_type_by_file_ext (splitextExt hd) true = false := by
        simpa using hs
      by_cases he : pyEndsWith hd OCR_RESULT_FILE_SUFFIX = true
      · by_cases ho : fns.contains (pyReplace hd OCR_RESULT_FILE_SUFFIX "") = true
        · by_cases hos : is_supported_doc_type_by_file_ext
              (splitextExt (pyReplace hd OCR_RESULT_FILE_SUFFIX "")) true = true
          · simp only [uploadOnlyScan, hs', Bool.false_eq_true, if_false, he,
              if_true, ho, hos]
            rcases List.mem_cons.mp hmem with heq | hrest
            · subst heq
              rw [offendingUploadFile, if_neg (by simp [hs']), if_pos he, ho, hos] at hoff
              simp at hoff
            · exact ih fn hrest hoff
          · have hos' : is_supported_doc_type_by_file_ext
                (splitextExt (pyReplace hd OCR_RESULT_FILE_SUFFIX "")) true = false := by
              simpa using hos
            simp only [uploadOnlyScan, hs', Bool.false_eq_true, if_false, he,
              if_true, ho, hos']
            rfl
        · have ho' : fns.contains (pyReplace hd OCR_RESULT_FILE_SUFFIX "") = false := by
            simpa using ho
          simp only [uploadOnlyScan, hs', Bool.false_eq_true, if_false, he,
            if_true, ho']
          rfl
      · have he' : pyEndsWith hd OCR_RESULT_FILE_SUFFIX = false := by simpa using he
        simp only [uploadOnlyScan, hs', Bool.false_eq_true, if_false, he']
        rfl

/-- A walk with an offending file in some directory cannot yield an
upload-only list. -/
theorem get_upload_only_list_error_of_offending :
    ∀ (walk : WalkTree) (d : String) (fns : List String) (fn : String),
      (d, fns) ∈ walk → fn ∈ fns → offendingUploadFile fns fn = true →
      listBuildOk (get_upload_only_list walk) = false := by
  intro walk
  induction walk with
  | nil => intro d fns fn h; exact absurd h (List.not_mem_nil _)
  | cons p rest ih =>
    intro d fns fn hp hmem hoff
    obtain ⟨d', fns'⟩ := p
    rcases List.mem_cons.mp hp with heq | hrest
    · obtain ⟨hd, hfns⟩ := Prod.mk.injEq .. ▸ heq
      subst hd hfns
      have hscan := uploadOnlyScan_error_of_offending d fns fns fn hmem hoff
      cases hx : uploadOnlyScan d fns fns with
      | ok xs => rw [hx] at hscan; exact absurd hscan (by simp [listBuildOk])
      | error e => simp only [get_upload_only_list]; rw [hx]; rfl
    · cases hx : uploadOnlyScan d' fns' fns' with
      | error e => simp only [get_upload_only_list]; rw [hx]; rfl
      | ok xs =>
        have hr := ih d fns fn hrest hmem hoff
        cases hy : get_upload_only_list rest with
        | ok ys => rw [hy] at hr; exact absurd hr (by simp [listBuildOk])
        | error e =>
          simp only [get_upload_only_list]
          rw [hx, hy]
          rfl

/-- The walk `{docs: [a.pdf, a.pdf.result.json, b.pdf]}` of the C7
scenario — `b.pdf.result.json` is missing. -/
def walkMissing : WalkTree := [("docs", ["a.pdf", "a.pdf.result.json", "b.pdf"])]

/-- The error `_get_upload_only_list` raises on `walkMissing`. -/
def missingArtifactErr : PyError :=
  .fileNotFoundError
    ("Result file \x27b.pdf.result.json\x27 does not exist in \x27docs\x27. " ++
      "Please run analyze first or remove this file from the folder.")

/-- C7: in an upload-only batch (`skip_analyze=True`), (a) an eligible
source file whose sibling `<filename>.result.json` is absent from its
directory makes the pre-flight list builder fail, and then the whole run
returns that error having performed no upload at all — in particular no
`sources.jsonl` manifest is published; (b) conversely a result artifact
whose original file is missing from the directory or has an unsupported
extension also makes the build fail. Concretely, the folder
`{a.pdf, a.pdf.result.json, b.pdf}` fails with the `FileNotFoundError`
naming `b.pdf.result.json`. -/
theorem upload_only_missing_artifact :
    (∀ (walk : WalkTree) (d : String) (fns : List String) (fn : String),
        (d, fns) ∈ walk → fn ∈ fns →
        is_supported_doc_type_by_file_ext (splitextExt fn) true = true →
        fns.contains (fn ++ OCR_RESULT_FILE_SUFFIX) = false →
        listBuildOk (get_upload_only_list walk) = false) ∧
    (∀ (walk : WalkTree) (pfx : String) (oracle : String → Except PyError Nat)
        (e : PyError), get_upload_only_list walk = .error e →
        generate_knowledge_base_on_blob walk pfx oracle true = ⟨.error e, [], []⟩) ∧
    (∀ (walk : WalkTree) (d : String) (fns : List String) (fn : String),
        (d, fns) ∈ walk → fn ∈ fns →
        pyEndsWith fn OCR_RESULT_FILE_SUFFIX = true →
        is_supported_doc_type_by_file_ext (splitextExt fn) true = false →
        (fns.contains (pyReplace fn OCR_RESULT_FILE_SUFFIX "") = false ∨
          is_supported_doc_type_by_file_ext
            (splitextExt (pyReplace fn OCR_RESULT_FILE_SUFFIX "")) true = false) →
        listBuildOk (get_upload_only_list walk) = false) ∧
    get_upload_only_list walkMissing = .error missingArtifactErr := by
  refine ⟨?_, ?_, ?_, rfl⟩
  · intro walk d fns fn hp hmem hsupp hmissing
    refine get_upload_only_list_error_of_offending walk d fns fn hp hmem ?_
    rw [offendingUploadFile, if_pos hsupp, hmissing]
    rfl
  · intro walk pfx oracle e herr
    simp only [generate_knowledge_base_on_blob, if_true]
    rw [herr]
  · intro walk d fns fn hp hmem hends hsupp hbad
    refine get_upload_only_list_error_of_offending walk d fns fn hp hmem ?_
    rw [offendingUploadFile, if_neg (by simp [hsupp]), if_pos hends]
    simp only [Bool.or_eq_true, Bool.not_eq_true']
    exact hbad

/-- C7 witness: over `{a.pdf, a.pdf.result.json, b.pdf}` the upload-only
run fails with the error naming `b.pdf.result.json` and performs no
upload (so no manifest is published). -/
theorem upload_only_missing_artifact_witness :
    generate_knowledge_base_on_blob walkMissing "kb" oracleOk true =
      ⟨.error missingArtifactErr, [], []⟩ :=
  upload_only_missing_artifact.2.1 walkMissing "kb" oracleOk missingArtifactErr rfl

/-- Every item `analyzeScan` produces derives its result-artifact name
from its filename and the fixed suffix. -/
theorem analyzeScan_names (d : String) :
    ∀ (fns : List String) (xs : List ReferenceDocItem), analyzeScan d fns = .ok xs →
      ∀ it ∈ xs, it.result_file_name = it.filename ++ OCR_RESULT_FILE_SUFFIX := by
  intro fns
  induction fns with
  | nil =>
    intro xs h it hit
    cases h
    exact absurd hit (List.not_mem_nil it)
  | cons fn rest ih =>
    intro xs h it hit
    by_cases hs : is_supported_doc_type_by_file_ext (splitextExt fn) true = true
    · rw [analyzeScan, if_pos hs] at h
      cases hr : analyzeScan d rest with
      | error e => rw [hr] at h; cases h
      | ok tail =>
        rw [hr] at h
        cases h
        rcases List.mem_cons.mp hit with heq | htail
        · subst heq; rfl
        · exact ih tail hr it htail
    · rw [analyzeScan, if_neg hs] at h
      cases h

/-- Every item `uploadOnlyScan` produces derives its result-artifact
name from its filename and the fixed suffix. -/
theorem uploadOnlyScan_names (d : String) (fns : List String) :
    ∀ (todo : List String) (xs : List ReferenceDocItem),
      uploadOnlyScan d fns todo = .ok xs →
      ∀ it ∈ xs, it.result_file_name = it.filename ++ OCR_RESULT_FILE_SUFFIX := by
  intro todo
  induction todo with
  | nil =>
    intro xs h it hit
    cases h
    exact absurd hit (List.not_mem_nil it)
  | cons fn rest ih =>
    intro xs h it hit
    by_cases hs : is_supported_doc_type_by_file_ext (splitextExt fn) true = true
    · by_cases hc : fns.contains (fn ++ OCR_RESULT_FILE_SUFFIX) = true
      · rw [uploadOnlyScan] at h
        simp only [hs, if_true, hc] at h
        cases hr : uploadOnlyScan d fns rest with
        | error e => rw [hr] at h; cases h
        | ok tail =>
          rw [hr] at h
          cases h
          rcases List.mem_cons.mp hit with heq | htail
          · subst heq; rfl
          · exact ih tail hr it htail
      · rw [uploadOnlyScan] at h
        simp only [hs, if_true, (by simpa using hc : fns.contains
          (fn ++ OCR_RESULT_FILE_SUFFIX) = false), Bool.false_eq_true, if_false] at h
        exact Except.noConfusion h
    · have hs' : is_supported_doc_type_by_file_ext (splitextExt fn) true = false := by
        simpa using hs
      by_cases he : pyEndsWith fn OCR_RESULT_FILE_SUFFIX = true
      · by_cases ho : fns.contains (pyReplace fn OCR_RESULT_FILE_SUFFIX "") = true
        · by_cases hos : is_supported_doc_type_by_file_ext
              (splitextExt (pyReplace fn OCR_RESULT_FILE_SUFFIX "")) true = true
          · rw [uploadOnlyScan] at h
            simp only [hs', Bool.false_eq_true, if_false, he, if_true, ho, hos] at h
            exact ih xs h it hit
          · rw [uploadOnlyScan] at h
            simp only [hs', Bool.false_eq_true, if_false, he, if_true, ho,
              (by simpa using hos : is_supported_doc_type_by_file_ext
                (splitextExt (pyReplace fn OCR_RESULT_FILE_SUFFIX "")) true = false)] at h
            exact Except.noConfusion h
        · rw [uploadOnlyScan] at h
          simp only [hs', Bool.false_eq_true, if_false, he, if_true,
            (by simpa using ho : fns.contains
              (pyReplace fn OCR_RESULT_FILE_SUFFIX "") = false)] at h
          exact Except.noConfusion h
      · rw [uploadOnlyScan] at h
        simp only [hs', Bool.false_eq_true, if_false,
          (by simpa using he : pyEndsWith fn OCR_RESULT_FILE_SUFFIX = false)] at h
        exact Except.noConfusion h

/-- Name shape for the whole analyze-mode pre-flight list. -/
theorem get_analyze_list_names :
    ∀ (walk : WalkTree) (items : List ReferenceDocItem),
      get_analyze_list walk = .ok items →
      ∀ it ∈ items, it.result_file_name = it.filename ++ OCR_RESULT_FILE_SUFFIX := by
  intro walk
  induction walk with
  | nil =>
    intro items h it hit
    cases h
    exact absurd hit (List.not_mem_nil it)
  | cons p rest ih =>
    intro items h it hit
    obtain ⟨d, fns⟩ := p
    rw [get_analyze_list] at h
    cases hx : analyzeScan d fns with
    | error e => rw [hx] at h; cases h
    | ok xs =>
      rw [hx] at h
      cases hy : get_analyze_list rest with
      | error e => rw [hy] at h; cases h
      | ok ys =>
        rw [hy] at h
        cases h
        rcases List.mem_append.mp hit with hx' | hy'
        · exact analyzeScan_names d fns xs hx it hx'
        · exact ih ys hy it hy'

/-- Name shape for the whole upload-only pre-flight list. -/
theorem get_upload_only_list_names :
    ∀ (walk : WalkTree) (items : List ReferenceDocItem),
      get_upload_only_list walk = .ok items →
      ∀ it ∈ items, it.result_file_name = it.filename ++ OCR_RESULT_FILE_SUFFIX := by
  intro walk
  induction walk with
  | nil =>
    intro items h it hit
    cases h
    exact absurd hit (List.not_mem_nil it)
  | cons p rest ih =>
    intro items h it hit
    obtain ⟨d, fns⟩ := p
    rw [get_upload_only_list] at h
    cases hx : uploadOnlyScan d fns fns with
    | error e => rw [hx] at h; cases h
    | ok xs =>
      rw [hx] at h
      cases hy : get_upload_only_list rest with
      | error e => rw [hy] at h; cases h
      | ok ys =>
        rw [hy] at h
        cases h
        rcases List.mem_append.mp hit with hx' | hy'
        · exact uploadOnlyScan_names d fns fns xs hx it hx'
        · exact ih ys hy it hy'

/-- When the analyze loop succeeds, its manifest records are exactly the
per-item `(filename, result_file_name)` pairs, in enumeration order. -/
theorem analyzeLoop_records (oracle : String → Except PyError Nat) (pfx : String) :
    ∀ (items : List ReferenceDocItem) (recs : List ManifestRecord),
      (analyzeLoop oracle pfx items).1 = .ok recs →
      recs = items.map
        (fun it => (⟨it.filename, it.result_file_name⟩ : ManifestRecord)) := by
  intro items
  induction items with
  | nil => intro recs h; cases h; rfl
  | cons item rest ih =>
    intro recs h
    cases ho : oracle item.file_path with
    | error e =>
      simp only [analyzeLoop, ho] at h
      exact Except.noConfusion h
    | ok r =>
      simp only [analyzeLoop, ho] at h
      cases hr : (analyzeLoop oracle pfx rest).1 with
      | error e =>
        rw [hr] at h
        simp only [Except.map] at h
        exact Except.noConfusion h
      | ok recs' =>
        rw [hr] at h
        simp only [Except.map, Except.ok.injEq] at h
        rw [List.map_cons, ← ih recs' hr]
        exact h.symm

/-- `json.dumps` escaping is the identity on quote-and-backslash-free
strings. -/
theorem jsonEscape_plain (s : String) (h : plainStr s = true) : jsonEscape s = s := by
  have hid : ∀ cs : List Char, (∀ c ∈ cs, ¬(c = '\\' ∨ c = '"')) →
      cs.flatMap (fun c => if c = '\\' ∨ c = '"' then ['\\', c] else [c]) = cs := by
    intro cs
    induction cs with
    | nil => intro; rfl
    | cons c rest ih =>
      intro hall
      rw [List.flatMap_cons, if_neg (hall c (by simp)),
        ih (fun x hx => hall x (by simp [hx]))]
      rfl
  have hall : ∀ c ∈ s.data, ¬(c = '\\' ∨ c = '"') := by
    rw [plainStr, List.all_eq_true] at h
    intro c hc
    simpa using h c hc
  rw [jsonEscape, hid s.data hall]

/-- Stripping the empty literal returns the input. -/
theorem dropLit_nil (l : List Char) : dropLit [] l = some l := by
  simp [dropLit]

/-- Stripping a literal proceeds character by character. -/
theorem dropLit_cons (c : Char) (lit l : List Char) :
    dropLit (c :: lit) (c :: l) = dropLit lit l := by
  simp [dropLit, List.isPrefixOf_cons₂_self, List.drop_succ_cons]

/-- Scanning a quote-free segment up to the next quote returns the
segment and the remainder. -/
theorem takeUntilQuote_append (f : List Char) (h : ∀ c ∈ f, c ≠ '"') (rest : List Char) :
    takeUntilQuote (f ++ '"' :: rest) = some (f, rest) := by
  induction f with
  | nil => rw [List.nil_append, takeUntilQuote, if_pos rfl]
  | cons c cs ih =>
    rw [List.cons_append, takeUntilQuote, if_neg (h c (by simp)),
      ih (fun x hx => h x (by simp [hx]))]
    rfl

/-- The `sources.jsonl` line round-trip: a serialised manifest record
with quote-and-backslash-free fields parses back to itself. -/
theorem parseRecordLine_dumpRecord (r : ManifestRecord)
    (hf : plainStr r.file = true) (hrf : plainStr r.resultFile = true) :
    parseRecordLine (dumpRecord r) = some r := by
  obtain ⟨f, rf⟩ := r
  simp only at hf hrf
  have hfq : ∀ c ∈ f.data, c ≠ '"' := by
    rw [plainStr, List.all_eq_true] at hf
    intro c hc
    have := hf c hc
    simp at this
    exact this.2
  have hrfq : ∀ c ∈ rf.data, c ≠ '"' := by
    rw [plainStr, List.all_eq_true] at hrf
    intro c hc
    have := hrf c hc
    simp at this
    exact this.2
  have hmk : ∀ s : String, String.mk s.data = s := fun s => rfl
  simp only [parseRecordLine, dumpRecord, jsonEscape_plain f hf, jsonEscape_plain rf hrf,
    String.data_append, List.append_assoc, List.cons_append, List.nil_append,
    dropLit_cons, dropLit_nil, takeUntilQuote_append f.data hfq,
    takeUntilQuote_append rf.data hrfq, hmk, if_true]

/-- The C8 walk `{docs: [a.pdf]}`. -/
def walkSingle : WalkTree := [("docs", ["a.pdf"])]

/-- C8: every completed `generate_knowledge_base_on_blob` run publishes
the manifest as its last upload, under the fixed name `sources.jsonl` in
the normalised prefix, containing exactly one record per processed item
in enumeration order; every record's `resultFile` is its `file` plus the
fixed suffix `.result.json`; and each serialised line parses back to its
record (for quote-and-backslash-free names), so the manifest round-trips. -/
theorem knowledge_base_manifest_roundtrip (walk : WalkTree) (pfx : String)
    (oracle : String → Except PyError Nat) (skip_analyze : Bool)
    (h : (generate_knowledge_base_on_blob walk pfx oracle skip_analyze).result = .ok ()) :
    (generate_knowledge_base_on_blob walk pfx oracle skip_analyze).uploads.getLast? =
      some ⟨normalizePathPfx pfx ++ KNOWLEDGE_SOURCE_LIST_FILE_NAME,
        .jsonlContent ((batchItems walk skip_analyze).map
          (fun it => ⟨it.filename, it.result_file_name⟩))⟩ ∧
    (∀ it ∈ batchItems walk skip_analyze,
      it.result_file_name = it.filename ++ OCR_RESULT_FILE_SUFFIX) ∧
    upload_jsonl_content ((batchItems walk skip_analyze).map
        (fun it => (⟨it.filename, it.result_file_name⟩ : ManifestRecord))) =
      String.intercalate "\n" (((batchItems walk skip_analyze).map
        (fun it => (⟨it.filename, it.result_file_name⟩ : ManifestRecord))).map dumpRecord) ∧
    (∀ r : ManifestRecord, plainStr r.file = true → plainStr r.resultFile = true →
      parseRecordLine (dumpRecord r) = some r) := by
  cases skip_analyze with
  | true =>
    cases hlist : get_upload_only_list walk with
    | error e =>
      rw [generate_knowledge_base_on_blob] at h
      simp [hlist] at h
    | ok items =>
      refine ⟨?_, ?_, rfl, fun r => parseRecordLine_dumpRecord r⟩
      · rw [generate_knowledge_base_on_blob]
        simp only [if_true, hlist, uploadOnlyLoop]
        rw [List.getLast?_concat]
        simp [batchItems, hlist]
      · simp only [batchItems, if_true, hlist]
        exact get_upload_only_list_names walk items hlist
  | false =>
    cases hlist : get_analyze_list walk with
    | error e =>
      rw [generate_knowledge_base_on_blob] at h
      simp [hlist] at h
    | ok items =>
      rcases hloop : analyzeLoop oracle (normalizePathPfx pfx) items with ⟨res, ups, calls⟩
      cases res with
      | error e =>
        rw [generate_knowledge_base_on_blob] at h
        simp [hlist, hloop] at h
      | ok recs =>
        have hrecs : recs = items.map
            (fun it => (⟨it.filename, it.result_file_name⟩ : ManifestRecord)) :=
          analyzeLoop_records oracle (normalizePathPfx pfx) items recs (by rw [hloop])
        refine ⟨?_, ?_, rfl, fun r => parseRecordLine_dumpRecord r⟩
        · rw [generate_knowledge_base_on_blob]
          simp only [Bool.false_eq_true, if_false, hlist, hloop]
          rw [List.getLast?_concat]
          simp [batchItems, hlist, hrecs]
        · simp only [batchItems, Bool.false_eq_true, if_false, hlist]
          exact get_analyze_list_names walk items hlist

/-- C8 witness: the completed analyze-mode run over `{docs: [a.pdf]}`
publishes `kb/sources.jsonl` last, holding the single record for
`a.pdf`. -/
theorem knowledge_base_manifest_roundtrip_witness :
    (generate_knowledge_base_on_blob walkSingle "kb" oracleOk false).uploads.getLast? =
      some ⟨normalizePathPfx "kb" ++ KNOWLEDGE_SOURCE_LIST_FILE_NAME,
        .jsonlContent ((batchItems walkSingle false).map
          (fun it => ⟨it.filename, it.result_file_name⟩))⟩ :=
  (knowledge_base_manifest_roundtrip walkSingle "kb" oracleOk false rfl).1
